import Mathlib

/-!
Verification development for the hashicups Terraform provider
(src/hashicups/order_resource.go and src/main.go).

The order resource of the provider is a set of CRUD handlers over a remote
HTTP client.  Each handler is embedded here as a pure function from the
decoded request data and the outcome of the remote call(s) to the
response it produces (resulting Terraform state, diagnostics, and the
list of remote calls issued).  Conventions of the embedding:

* Go `int` / `int64` values are modelled as `Int` (the conversions
  `int(x.ValueInt64())` and `int64(y)` in the source are identities on a
  64-bit platform).
* `types.String` / `types.Int64` / `types.Float64` framework values are
  modelled by their plain values: at every point where the handlers read
  them the values are known (the only unknown attribute, the computed
  `id` in a create plan, is never read by `Create`).
* Go `float64` fields (coffee `price`) are only ever copied verbatim by
  this code, never computed on, so they are modelled as an opaque
  integer payload.
* `time.Now().Format(time.RFC850)` is nondeterministic and is passed in
  as the `now : String` parameter.
* The terraform-plugin-framework initialises the response state from
  the prior state (`Read`, `Update`, `Delete`) or leaves it unset
  (`Create`); a handler that returns early with an error diagnostic and
  never calls `State.Set` therefore leaves that initial state in place,
  and a `Delete` that returns without error diagnostics has the
  resource removed from state by the framework.  The embeddings encode
  exactly this.
* A Go panic (index out of range in the response-item loop of `Create`) is
  modelled by `Option`: `none` is a panic, `some` a normal return.
-/

namespace Hashicups

/-- Wire type of a coffee ingredient (client package, used by the
coffees data source in src/main.go). -/
structure Ingredient where
  id : Int
  deriving DecidableEq

/-- Wire type `Coffee` of the hashicups client package.  `price` is a
`float64` payload in Go, only ever copied, modelled opaquely. -/
structure Coffee where
  id : Int
  name : String
  teaser : String
  description : String
  price : Int
  image : String
  ingredient : List Ingredient
  deriving DecidableEq

/-- Wire type `OrderItem` of the hashicups client package. -/
structure OrderItem where
  coffee : Coffee
  quantity : Int
  deriving DecidableEq

/-- Wire type `Order` of the hashicups client package. -/
structure Order where
  id : Int
  items : List OrderItem
  deriving DecidableEq

/-- Schema model `orderItemCoffeeModel` of order_resource.go. -/
structure orderItemCoffeeModel where
  id : Int
  name : String
  teaser : String
  description : String
  price : Int
  image : String
  deriving DecidableEq

/-- Schema model `orderItemModel` of order_resource.go. -/
structure orderItemModel where
  coffee : orderItemCoffeeModel
  quantity : Int
  deriving DecidableEq

/-- Schema model `orderResourceModel` of order_resource.go: the Terraform state /
plan shape of one order resource. -/
structure orderResourceModel where
  id : String
  items : List orderItemModel
  lastUpdated : String
  deriving DecidableEq

/-- Error taxonomy of the remote client, following the spec (the
client code itself is not under src/); the handlers in
order_resource.go treat every non-nil error alike. -/
inductive ClientError where
  | transport (msg : String)
  | remote (status : Nat) (body : String)
  | notFound
  | decode (msg : String)
  deriving DecidableEq

/-- Rendering of `err.Error()`.  The concrete text comes from client code
outside src/; the handlers only concatenate it into diagnostics, so any
fixed rendering is faithful for the properties proved here. -/
def errText : ClientError → String
  | .transport msg => msg
  | .remote status body => toString status ++ ": " ++ body
  | .notFound => "order not found"
  | .decode msg => msg

/-- One remote call issued by a handler, with its arguments. -/
inductive RemoteCall where
  | createOrder (items : List OrderItem)
  | getOrder (id : String)
  | updateOrder (id : String) (items : List OrderItem)
  | deleteOrder (id : String)
  deriving DecidableEq

/-- A diagnostic as produced by `Diagnostics.AddError` (summary,
detail). -/
abbrev Diag := String × String

/-- The request-item construction shared verbatim by `Create`
(lines 127-135) and `Update` (lines 218-226): each planned item becomes
a wire `OrderItem` carrying only the coffee identity key and the
quantity; every other wire field is the Go zero value. -/
def toOrderItems (items : List orderItemModel) : List OrderItem :=
  items.map fun item =>
    { coffee := { id := item.coffee.id, name := "", teaser := "", description := "",
                  price := 0, image := "", ingredient := [] }
      quantity := item.quantity }

/-- Mapping of one wire `OrderItem` of a server response back into the
schema model, as written in the loops of `Create`, `Read` and
`Update`. -/
def fromOrderItem (item : OrderItem) : orderItemModel :=
  { coffee := { id := item.coffee.id, name := item.coffee.name, teaser := item.coffee.teaser,
                description := item.coffee.description, price := item.coffee.price,
                image := item.coffee.image }
    quantity := item.quantity }

/-- The response loop of `Create` (lines 147-159) assigns
`plan.Items[orderItemIndex] = ...` in place for each response item;
items of the plan beyond the response length are left as they were.
`none` models the index-out-of-range panic Go raises when the response
has more items than the plan. -/
def overwriteItems : List orderItemModel → List OrderItem → Option (List orderItemModel)
  | planItems, [] => some planItems
  | _ :: ps, oi :: rest => (overwriteItems ps rest).map fun tail => fromOrderItem oi :: tail
  | [], _ :: _ => none

/-- Digits of `n` in base 10, least significant first, by fuelled
structural recursion (kernel-reducible); `natDigits` below instantiates
the fuel. -/
def toDigitsAux : Nat → Nat → List Nat
  | 0, _ => []
  | fuel + 1, n => if n = 0 then [] else n % 10 :: toDigitsAux fuel (n / 10)

/-- Base-10 digits of a natural number, least significant first. -/
def natDigits (n : Nat) : List Nat := toDigitsAux n n

/-- Decimal character string of a natural number, as produced by the Go
`strconv` formatting core: most significant digit first, `"0"` for 0,
no leading zeros. -/
def natChars (n : Nat) : List Char :=
  if n = 0 then ['0'] else ((natDigits n).map Nat.digitChar).reverse

/-- Embedding of `strconv.Itoa` (order_resource.go line 146): decimal
representation of the integer, with a leading minus sign for negative
values. -/
def itoa (i : Int) : String :=
  if i < 0 then String.mk ('-' :: natChars i.natAbs) else String.mk (natChars i.toNat)

/-- Value of a decimal digit character, `none` on a non-digit. -/
def digitVal (c : Char) : Option Nat :=
  if 48 ≤ c.toNat ∧ c.toNat ≤ 57 then some (c.toNat - 48) else none

/-- Left-to-right accumulation of decimal digit characters; fails on
the first non-digit. -/
def parseNatAux : List Char → Nat → Option Nat
  | [], acc => some acc
  | c :: rest, acc =>
    match digitVal c with
    | none => none
    | some d => parseNatAux rest (acc * 10 + d)

/-- Parse a nonempty run of decimal digit characters. -/
def parseNatChars (cs : List Char) : Option Nat :=
  if cs.isEmpty then none else parseNatAux cs 0

/-- Exact decimal parse of an integer character list: a leading minus
sign negates the parsed digit run. -/
def parseIntChars : List Char → Option Int
  | [] => none
  | c :: rest =>
    if c = '-' then (parseNatChars rest).map fun m : Nat => -(Int.ofNat m)
    else (parseNatChars (c :: rest)).map fun m : Nat => Int.ofNat m

/-- Exact decimal parse of an integer string: the inverse direction of
`itoa`, used to state that the numeric-to-string identity-key
conversion loses nothing. -/
def parseItoa (s : String) : Option Int := parseIntChars s.data

/-- Response of the `Create` handler: resulting state (unset on
failure), diagnostics, and the remote calls issued. -/
structure CreateResponse where
  state : Option orderResourceModel
  diagnostics : List Diag
  calls : List RemoteCall
  deriving DecidableEq

/-- Response of the `Read` handler: `state = none` would mean the
resource was removed from state. -/
structure ReadResponse where
  state : Option orderResourceModel
  diagnostics : List Diag
  calls : List RemoteCall
  deriving DecidableEq

/-- Response of the `Update` handler; its state is initialised to the
prior state by the framework and only replaced by `State.Set`. -/
structure UpdateResponse where
  state : orderResourceModel
  diagnostics : List Diag
  calls : List RemoteCall
  deriving DecidableEq

/-- Response of the `Delete` handler: `state = none` means the
framework removed the resource (no error diagnostics were added). -/
structure DeleteResponse where
  state : Option orderResourceModel
  diagnostics : List Diag
  calls : List RemoteCall
  deriving DecidableEq

/-- Embedding of `(*orderResource).Create` (order_resource.go
lines 119-167), parameterised by the outcome of the one
`client.CreateOrder` call.  `none` models the panic of the
response-item loop. -/
def create (plan : orderResourceModel) (result : Except ClientError Order)
    (now : String) : Option CreateResponse :=
  let items := toOrderItems plan.items
  match result with
  | .error err =>
    some { state := none
           diagnostics := [("Error creating order",
             "An unexpected error was encountered trying to create the order." ++ errText err)]
           calls := [.createOrder items] }
  | .ok order =>
    (overwriteItems plan.items order.items).map fun newItems =>
      { state := some { id := itoa order.id, items := newItems, lastUpdated := now }
        diagnostics := []
        calls := [.createOrder items] }

/-- Embedding of `(*orderResource).Read` (order_resource.go
lines 169-206), parameterised by the outcome of the one
`client.GetOrder` call.  Every error, a not-found included, takes the
same early-return branch, leaving the prior state in place. -/
def read (state : orderResourceModel) (result : Except ClientError Order) : ReadResponse :=
  match result with
  | .error err =>
    { state := some state
      diagnostics := [("Error Reading HashiCups Order",
        "Could not read HashiCups order ID " ++ state.id ++ ": " ++ errText err)]
      calls := [.getOrder state.id] }
  | .ok order =>
    { state := some { id := state.id, items := order.items.map fromOrderItem,
                      lastUpdated := state.lastUpdated }
      diagnostics := []
      calls := [.getOrder state.id] }

/-- Embedding of `(*orderResource).Update` (order_resource.go
lines 208-271): one `client.UpdateOrder` call, then (only on its
success) one `client.GetOrder` call; both outcomes are parameters.
`prior` is the pre-update state the framework initialised the response
with. -/
def update (prior plan : orderResourceModel)
    (updateResult getResult : Except ClientError Order) (now : String) : UpdateResponse :=
  let hashicupsItems := toOrderItems plan.items
  match updateResult with
  | .error err =>
    { state := prior
      diagnostics := [("Error Updating HashiCups Order",
        "Could not update order, unexpected error: " ++ errText err)]
      calls := [.updateOrder plan.id hashicupsItems] }
  | .ok _ =>
    match getResult with
    | .error err =>
      { state := prior
        diagnostics := [("Error Reading HashiCups Order",
          "Could not read HashiCups order ID " ++ plan.id ++ ": " ++ errText err)]
        calls := [.updateOrder plan.id hashicupsItems, .getOrder plan.id] }
    | .ok order =>
      { state := { id := plan.id, items := order.items.map fromOrderItem, lastUpdated := now }
        diagnostics := []
        calls := [.updateOrder plan.id hashicupsItems, .getOrder plan.id] }

/-- Embedding of `(*orderResource).Delete` (order_resource.go
lines 273-289), parameterised by the outcome of the one
`client.DeleteOrder` call. -/
def delete (state : orderResourceModel) (result : Except ClientError Unit) : DeleteResponse :=
  match result with
  | .error err =>
    { state := some state
      diagnostics := [("Error Deleting HashiCups Order",
        "Could not delete order, unexpected error: " ++ errText err)]
      calls := [.deleteOrder state.id] }
  | .ok _ =>
    { state := none
      diagnostics := []
      calls := [.deleteOrder state.id] }

/-- Remote-side order store keyed by the string identity key. -/
def lookupOrder (remote : List (String × Order)) (id : String) : Option Order :=
  (remote.find? fun p => p.1 == id).map fun p => p.2

/-- Modelled from the spec: `Client.DeleteOrder` is repository code not
under src/ (only its caller, `Delete`, is).  Spec section 4.1:
`Delete(identityKey)` fails with `RemoteError` if the remote rejects
deletion (e.g. a referential constraint, here the `rejected` flag) and
succeeds with no error if the object is already absent — deletion is
idempotent by design. -/
def clientDeleteOrder (remote : List (String × Order)) (rejected : Bool)
    (id : String) : List (String × Order) × Except ClientError Unit :=
  match lookupOrder remote id with
  | none => (remote, .ok ())
  | some _ =>
    if rejected then (remote, .error (.remote 409 "order is referenced"))
    else (remote.filter fun p => p.1 != id, .ok ())

/-- One `Destroy` pass: the `Delete` handler driven by the modelled
remote store. -/
def destroyStep (remote : List (String × Order)) (rejected : Bool)
    (s : orderResourceModel) : List (String × Order) × DeleteResponse :=
  let r := clientDeleteOrder remote rejected s.id
  (r.1, delete s r.2)

/-- Concrete plan used by the scenario of spec section 8: one item,
coffee identity key 1, quantity 2; the computed attributes are still
unset before creation. -/
def samplePlan : orderResourceModel :=
  { id := ""
    items := [{ coffee := { id := 1, name := "", teaser := "", description := "",
                            price := 0, image := "" }
                quantity := 2 }]
    lastUpdated := "" }

/-- Concrete server-side coffee with the server-filled catalog
fields. -/
def sampleCoffee : Coffee :=
  { id := 1, name := "Packer Spiced Latte", teaser := "Packed with goodness to spice up your images",
    description := "A latte", price := 350, image := "/packer.png", ingredient := [] }

/-- Concrete create response of the simulated server: identity key 42,
one item echoing quantity 2 with the coffee filled in. -/
def sampleOrder : Order :=
  { id := 42, items := [{ coffee := sampleCoffee, quantity := 2 }] }

/-- Concrete post-create Terraform state of the sample order. -/
def samplePresentState : orderResourceModel :=
  { id := "42"
    items := [{ coffee := { id := 1, name := "Packer Spiced Latte",
                            teaser := "Packed with goodness to spice up your images",
                            description := "A latte", price := 350, image := "/packer.png" }
                quantity := 2 }]
    lastUpdated := "t0" }

/-- Concrete plan whose single item has quantity 0. -/
def zeroQuantityPlan : orderResourceModel :=
  { id := ""
    items := [{ coffee := { id := 1, name := "", teaser := "", description := "",
                            price := 0, image := "" }
                quantity := 0 }]
    lastUpdated := "" }

/-! ## Helper lemmas -/

/-- The index-assignment loop succeeds exactly when every response
index is in bounds of the plan item list. -/
theorem overwriteItems_isSome (o : List OrderItem) :
    ∀ p : List orderItemModel, (overwriteItems p o).isSome ↔ o.length ≤ p.length := by
  induction o with
  | nil => intro p; simp [overwriteItems]
  | cons oi rest ih =>
    intro p
    cases p with
    | nil => simp [overwriteItems]
    | cons q qs =>
      rcases h : overwriteItems qs rest with _ | v
      · have hqs := ih qs
        rw [h] at hqs
        simp only [Option.isSome_none, Bool.false_eq_true, false_iff, not_le] at hqs
        simp only [overwriteItems, h, Option.map_none', Option.isSome_none, List.length_cons,
          Bool.false_eq_true, false_iff, not_le]
        omega
      · have hqs := ih qs
        rw [h] at hqs
        simp only [Option.isSome_some, true_iff] at hqs
        simp only [overwriteItems, h, Option.map_some', Option.isSome_some, List.length_cons,
          true_iff]
        omega

/-- When the response fits, the index-assignment loop replaces the
overwritten prefix and keeps the tail of the plan. -/
theorem overwriteItems_of_le (o : List OrderItem) :
    ∀ p : List orderItemModel, o.length ≤ p.length →
      overwriteItems p o = some (o.map fromOrderItem ++ p.drop o.length) := by
  induction o with
  | nil => intro p _; simp [overwriteItems]
  | cons oi rest ih =>
    intro p hlen
    cases p with
    | nil => simp at hlen
    | cons q qs =>
      simp only [List.length_cons] at hlen
      simp [overwriteItems, ih qs (by omega)]

/-- After a non-rejected delete, the identity key is absent from the
remote store. -/
theorem lookupOrder_filter_self (remote : List (String × Order)) (id : String) :
    lookupOrder (remote.filter fun p => p.1 != id) id = none := by
  unfold lookupOrder
  rw [Option.map_eq_none', List.find?_eq_none]
  intro x hx
  rw [List.mem_filter] at hx
  simpa using hx.2

/-- The object is absent after a non-rejected delete, whether or not it
existed before. -/
theorem lookupOrder_after_delete (remote : List (String × Order)) (id : String) :
    lookupOrder (clientDeleteOrder remote false id).1 id = none := by
  unfold clientDeleteOrder
  cases h : lookupOrder remote id with
  | none => exact h
  | some o => simp [h, lookupOrder_filter_self]

/-- A non-rejected delete reports success. -/
theorem clientDeleteOrder_ok (remote : List (String × Order)) (id : String) :
    (clientDeleteOrder remote false id).2 = Except.ok () := by
  unfold clientDeleteOrder
  cases h : lookupOrder remote id <;> simp [h]

/-- The fuelled digit computation agrees with the mathlib digit
function once the fuel covers the input. -/
theorem toDigitsAux_eq_digits (n : Nat) :
    ∀ fuel : Nat, n ≤ fuel → toDigitsAux fuel n = Nat.digits 10 n := by
  induction n using Nat.strong_induction_on with
  | _ n ih =>
    intro fuel hf
    match fuel with
    | 0 =>
      have hn : n = 0 := Nat.le_zero.mp hf
      subst hn
      simp [toDigitsAux]
    | fuel + 1 =>
      by_cases hn : n = 0
      · subst hn
        simp [toDigitsAux]
      · rw [toDigitsAux, if_neg hn]
        have hlt : n / 10 < n := Nat.div_lt_self (Nat.pos_of_ne_zero hn) (by norm_num)
        rw [ih (n / 10) hlt fuel (by omega)]
        rw [Nat.digits_def' (by norm_num : 1 < 10) (Nat.pos_of_ne_zero hn)]

/-- The base-10 digit list of the embedding is the mathlib one. -/
theorem natDigits_eq_digits (n : Nat) : natDigits n = Nat.digits 10 n :=
  toDigitsAux_eq_digits n n le_rfl

/-- Digit parsing distributes over list append. -/
theorem parseNatAux_append (xs ys : List Char) (a : Nat) :
    parseNatAux (xs ++ ys) a = (parseNatAux xs a).bind fun acc => parseNatAux ys acc := by
  induction xs generalizing a with
  | nil => simp [parseNatAux]
  | cons c rest ih =>
    cases h : digitVal c with
    | none => simp [parseNatAux, h]
    | some d => simp [parseNatAux, h, ih]

/-- Decoding inverts the digit-to-character rendering on the ten
decimal digits. -/
theorem digitVal_digitChar (d : Nat) (hd : d < 10) :
    digitVal (Nat.digitChar d) = some d := by
  interval_cases d <;> decide

/-- Horner evaluation: parsing the reversed (most significant first)
character rendering of a digit list recovers its value. -/
theorem parseNatAux_digits (ds : List Nat) (hds : ∀ d ∈ ds, d < 10) (a : Nat) :
    parseNatAux ((ds.map Nat.digitChar).reverse) a
      = some (a * 10 ^ ds.length + Nat.ofDigits 10 ds) := by
  induction ds generalizing a with
  | nil => simp [parseNatAux, Nat.ofDigits]
  | cons d rest ih =>
    have hd : d < 10 := hds d (by simp)
    have hrest : ∀ x ∈ rest, x < 10 := fun x hx => hds x (by simp [hx])
    rw [List.map_cons, List.reverse_cons, parseNatAux_append, ih hrest a]
    simp only [Option.some_bind, parseNatAux, digitVal_digitChar d hd, Nat.ofDigits_cons,
      List.length_cons, Option.some.injEq]
    ring

/-- The decimal rendering of a natural number is never the empty
character list. -/
theorem natChars_ne_nil (n : Nat) : natChars n ≠ [] := by
  unfold natChars
  by_cases hn : n = 0
  · simp [hn]
  · rw [if_neg hn]
    simp only [ne_eq, List.reverse_eq_nil_iff, List.map_eq_nil_iff]
    rw [natDigits_eq_digits]
    exact Nat.digits_ne_nil_iff_ne_zero.mpr hn

/-- Parsing the decimal rendering of a natural number recovers it. -/
theorem parseNatChars_natChars (n : Nat) : parseNatChars (natChars n) = some n := by
  by_cases hn : n = 0
  · subst hn
    decide
  · unfold parseNatChars
    rw [if_neg (by simpa using natChars_ne_nil n)]
    unfold natChars
    rw [if_neg hn, natDigits_eq_digits]
    rw [parseNatAux_digits (Nat.digits 10 n)
      (fun d hd => Nat.digits_lt_base (by norm_num) hd) 0]
    simp [Nat.ofDigits_digits]

/-- Every character of the decimal rendering is a decimal digit
character, in particular never the minus sign. -/
theorem natChars_ne_minus (n : Nat) : ∀ c ∈ natChars n, c ≠ '-' := by
  intro c hc
  unfold natChars at hc
  by_cases hn : n = 0
  · rw [if_pos hn] at hc
    simp at hc
    subst hc
    decide
  · rw [if_neg hn] at hc
    rw [List.mem_reverse, List.mem_map] at hc
    obtain ⟨d, hd, hdc⟩ := hc
    rw [natDigits_eq_digits] at hd
    have hd10 : d < 10 := Nat.digits_lt_base (by norm_num) hd
    subst hdc
    interval_cases d <;> decide

/-! ## Claim theorems -/

/-- C1: for every operation and every failing remote call the
resulting Terraform state is exactly the pre-call state: a failed
create leaves the state unset (absent), a failed update (its
update call or its follow-up read) retains the pre-update state
verbatim, and failed reads and deletes keep the prior state. -/
theorem failed_call_preserves_observed_state (plan prior s : orderResourceModel)
    (e : ClientError) (g : Except ClientError Order) (o : Order) (now : String) :
    (create plan (Except.error e) now).map CreateResponse.state = some none ∧
    (update prior plan (Except.error e) g now).state = prior ∧
    (update prior plan (Except.ok o) (Except.error e) now).state = prior ∧
    (read s (Except.error e)).state = some s ∧
    (delete s (Except.error e)).state = some s :=
  ⟨rfl, rfl, rfl, rfl, rfl⟩

/-- C2 counterexample: a refresh of the concrete present state that
fails with a not-found error does not remove the resource from state,
contrary to the claim that it transitions the entity to absent. -/
theorem read_notfound_does_not_remove_state :
    (read samplePresentState (Except.error ClientError.notFound)).state ≠ none ∧
    (read samplePresentState (Except.error ClientError.notFound)).state
      = some samplePresentState := by
  exact ⟨by simp [read], rfl⟩

/-- C2 amended: a refresh that fails with any error — a not-found
included — leaves the entity present with its observed state unchanged
and surfaces the error as a diagnostic; the code never removes the
entity from state or reports out-of-band deletion. -/
theorem read_failure_keeps_state (s : orderResourceModel) (e : ClientError) :
    (read s (Except.error e)).state = some s ∧ (read s (Except.error e)).diagnostics ≠ [] :=
  ⟨rfl, by simp [read]⟩

/-- C3 counterexample: applying a plan structurally identical to the
current state still issues remote calls — the update handler has no
no-op path, contrary to the claim of zero remote calls. -/
theorem update_equal_plan_still_calls_remote :
    (update samplePresentState samplePresentState
      (Except.ok sampleOrder) (Except.ok sampleOrder) "t1").calls ≠ [] := by
  simp [update]

/-- C3 amended: the update handler always issues a remote update call
carrying the planned items — also when the planned items equal the
last-applied ones; no structural-equality no-op short circuit exists in
the provider (plan/state diffing happens outside this code). -/
theorem update_always_calls_updateOrder (prior plan : orderResourceModel)
    (u g : Except ClientError Order) (now : String) :
    (update prior plan u g now).calls ≠ [] ∧
    (update prior plan u g now).calls.head?
      = some (RemoteCall.updateOrder plan.id (toOrderItems plan.items)) := by
  cases u <;> cases g <;> exact ⟨by simp [update], rfl⟩

/-- C6: every update request carries the entire planned item list, one
wire item per planned item with its coffee identity key and quantity,
and the request is independent of the previous observed state (no
per-item diff, no partial nested-list patch). -/
theorem update_sends_full_item_list (prior prior' plan : orderResourceModel)
    (u g : Except ClientError Order) (now : String) :
    (update prior plan u g now).calls.head?
      = some (RemoteCall.updateOrder plan.id (plan.items.map fun item =>
          { coffee := { id := item.coffee.id, name := "", teaser := "", description := "",
                        price := 0, image := "", ingredient := [] }
            quantity := item.quantity })) ∧
    (toOrderItems plan.items).length = plan.items.length ∧
    (update prior plan u g now).calls = (update prior' plan u g now).calls := by
  refine ⟨?_, by simp [toOrderItems], ?_⟩ <;> cases u <;> cases g <;> rfl

/-- C9 counterexample: a plan whose single item has quantity 0 is
accepted and its quantity-0 item is sent to the remote in the create
request, contrary to the claim that only quantities at least 1 are ever
sent. -/
theorem create_accepts_zero_quantity :
    (create zeroQuantityPlan (Except.error (ClientError.transport "boom")) "").map
        CreateResponse.calls
      = some [RemoteCall.createOrder
          [{ coffee := { id := 1, name := "", teaser := "", description := "",
                         price := 0, image := "", ingredient := [] }
             quantity := 0 }]] ∧
    ¬ (∀ item ∈ toOrderItems zeroQuantityPlan.items, 1 ≤ item.quantity) := by
  exact ⟨rfl, by decide⟩

/-- C9 amended: item quantities are forwarded verbatim into the wire
request — the schema and the handlers impose no positivity constraint,
so zero and negative quantities are accepted and sent unchanged. -/
theorem request_quantities_verbatim (items : List orderItemModel) :
    (toOrderItems items).map OrderItem.quantity = items.map orderItemModel.quantity := by
  simp [toOrderItems]

/-- C10: the create handler is panic-free exactly when the create
response carries at most as many items as the plan; a response with
more items makes the index assignment go out of bounds. -/
theorem create_total_iff_response_fits (plan : orderResourceModel) (order : Order)
    (now : String) :
    (create plan (Except.ok order) now).isSome ↔ order.items.length ≤ plan.items.length := by
  simpa [create] using overwriteItems_isSome order.items plan.items

/-- C4: a successful create sends one create request holding exactly
the user-specified nested item structure (coffee identity key and
quantity per item, all other wire fields zero), and the resulting state
has the server-assigned identity key rendered as its decimal string and
the items overwritten with the mapped server response (server-filled
coffee fields and quantity included). -/
theorem create_success_maps_response (plan : orderResourceModel) (order : Order)
    (now : String) (h : order.items.length = plan.items.length) :
    create plan (Except.ok order) now =
      some { state := some { id := itoa order.id, items := order.items.map fromOrderItem,
                             lastUpdated := now }
             diagnostics := []
             calls := [RemoteCall.createOrder (plan.items.map fun item =>
               { coffee := { id := item.coffee.id, name := "", teaser := "", description := "",
                             price := 0, image := "", ingredient := [] }
                 quantity := item.quantity })] } := by
  simp [create, overwriteItems_of_le order.items plan.items (le_of_eq h), h,
    List.drop_length, toOrderItems]

/-- C4 witness: the scenario of spec section 8 — plan with one item of
coffee 1 and quantity 2, simulated response with identity key 42 and
the coffee filled in — yields state with identity key string 42. -/
theorem create_success_maps_response_witness :
    sampleOrder.items.length = samplePlan.items.length ∧
    itoa sampleOrder.id = "42" ∧
    create samplePlan (Except.ok sampleOrder) "t0" =
      some { state := some { id := itoa sampleOrder.id,
                             items := sampleOrder.items.map fromOrderItem,
                             lastUpdated := "t0" }
             diagnostics := []
             calls := [RemoteCall.createOrder (samplePlan.items.map fun item =>
               { coffee := { id := item.coffee.id, name := "", teaser := "", description := "",
                             price := 0, image := "", ingredient := [] }
                 quantity := item.quantity })] } :=
  ⟨rfl, by decide, create_success_maps_response samplePlan sampleOrder "t0" rfl⟩

/-- C8: the identity key is preserved by every operation after
creation: a read keeps the stored identity key whatever the remote
returns, an update keeps the prior identity key (the planned value of
the computed id attribute equals the prior state value, by the
use-state-for-unknown plan modifier of the schema), and a successful
create assigns the server-provided key. -/
theorem identity_key_immutable (s prior plan : orderResourceModel) (order : Order)
    (r u g : Except ClientError Order) (now : String)
    (hplan : plan.id = prior.id) :
    ((read s r).state).map orderResourceModel.id = some s.id ∧
    (update prior plan u g now).state.id = prior.id ∧
    (∀ resp : CreateResponse, create plan (Except.ok order) now = some resp →
      resp.state.map orderResourceModel.id = some (itoa order.id)) := by
  refine ⟨by cases r <;> rfl, ?_, ?_⟩
  · cases u with
    | error e => rfl
    | ok o' =>
      cases g with
      | error e => rfl
      | ok o2 => simpa [update] using hplan
  · intro resp hresp
    cases hov : overwriteItems plan.items order.items with
    | none => simp [create, hov] at hresp
    | some items' =>
      simp only [create, hov, Option.map_some', Option.some.injEq] at hresp
      rw [← hresp]
      rfl

/-- C8 witness: concrete instantiation at the sample state and order,
with the planned identity key equal to the prior one. -/
theorem identity_key_immutable_witness :
    samplePresentState.id = samplePresentState.id ∧
    ((read samplePresentState (Except.ok sampleOrder)).state).map orderResourceModel.id
      = some samplePresentState.id ∧
    (update samplePresentState samplePresentState (Except.ok sampleOrder)
      (Except.ok sampleOrder) "t1").state.id = samplePresentState.id ∧
    (∀ resp : CreateResponse,
      create samplePresentState (Except.ok sampleOrder) "t1" = some resp →
        resp.state.map orderResourceModel.id = some (itoa sampleOrder.id)) := by
  have h := identity_key_immutable samplePresentState samplePresentState samplePresentState
    sampleOrder (Except.ok sampleOrder) (Except.ok sampleOrder) (Except.ok sampleOrder)
    "t1" rfl
  exact ⟨rfl, h.1, h.2.1, h.2.2⟩

/-- C7: destroying and then destroying again on the same identity key
does not fail: the first (non-rejected) destroy succeeds, and the
second destroy hits an already-absent object, which the modelled remote
client accepts with no error by design, so the delete handler surfaces
no diagnostics and the resource ends up removed from state. -/
theorem destroy_twice_no_error (remote : List (String × Order)) (rej2 : Bool)
    (s : orderResourceModel) :
    (destroyStep remote false s).2.diagnostics = [] ∧
    (destroyStep (destroyStep remote false s).1 rej2 s).2.diagnostics = [] ∧
    (destroyStep (destroyStep remote false s).1 rej2 s).2.state = none := by
  have habs : lookupOrder (destroyStep remote false s).1 s.id = none :=
    lookupOrder_after_delete remote s.id
  have h2 : (clientDeleteOrder (destroyStep remote false s).1 rej2 s.id).2
      = Except.ok () := by
    unfold clientDeleteOrder
    rw [habs]
  refine ⟨?_, ?_, ?_⟩
  · show (delete s (clientDeleteOrder remote false s.id).2).diagnostics = []
    rw [clientDeleteOrder_ok]
    rfl
  · show (delete s (clientDeleteOrder (destroyStep remote false s).1 rej2 s.id).2).diagnostics
      = []
    rw [h2]
    rfl
  · show (delete s (clientDeleteOrder (destroyStep remote false s).1 rej2 s.id).2).state
      = none
    rw [h2]
    rfl

/-- C5: for every numeric identity key in the 64-bit integer range of
the Go int, the string identity key produced at the host boundary is
its exact decimal rendering: parsing it back recovers the number, so
the conversion loses and truncates nothing.  (The conversion direction
used by the code, integer to string, is total: no overflow or
non-numeric input exists for it, so its failure case is vacuous.) -/
theorem itoa_exact (n : Int) (_h : -(2 ^ 63) ≤ n ∧ n < 2 ^ 63) :
    parseItoa (itoa n) = some n := by
  unfold itoa
  by_cases hneg : n < 0
  · rw [if_pos hneg]
    show parseIntChars ('-' :: natChars n.natAbs) = some n
    simp only [parseIntChars, if_pos, parseNatChars_natChars, Option.map_some',
      Option.some.injEq, reduceIte, Int.ofNat_eq_natCast]
    omega
  · rw [if_neg hneg]
    obtain ⟨c, rest, hcs⟩ : ∃ c rest, natChars n.toNat = c :: rest := by
      cases hh : natChars n.toNat with
      | nil => exact absurd hh (natChars_ne_nil _)
      | cons c rest => exact ⟨c, rest, rfl⟩
    show parseIntChars (natChars n.toNat) = some n
    rw [hcs]
    simp only [parseIntChars]
    rw [if_neg (natChars_ne_minus n.toNat c (hcs ▸ List.mem_cons_self c rest))]
    rw [← hcs, parseNatChars_natChars]
    simp only [Option.map_some', Option.some.injEq, Int.ofNat_eq_natCast]
    omega

/-- C5 witness: the conversion at the concrete in-range keys 9005 and
-42 round-trips, and the rendered strings are the expected decimal
ones. -/
theorem itoa_exact_witness :
    (-(2 ^ 63) ≤ (9005 : Int) ∧ (9005 : Int) < 2 ^ 63) ∧
    parseItoa (itoa 9005) = some 9005 ∧
    parseItoa (itoa (-42)) = some (-42) ∧
    itoa 9005 = "9005" ∧ itoa (-42) = "-42" :=
  ⟨by norm_num, itoa_exact 9005 (by norm_num), itoa_exact (-42) (by norm_num),
    by decide, by decide⟩

end Hashicups
